import Mathlib

/-!
Verification development for the Bebcom-Cardapio-Delivery backend.

The repository contains several near-duplicate Express servers.  The two that
the specification's claims cite are:

  * `src/backend/server.js` — two concatenated servers.  The first (lines
    1-502) is the MongoDB-backed variant: availability for each kind lives in
    a single Mongo document `{ type: 'availability', data: <map> }` and the
    bulk route overwrites the `data` field with `$set`.  The second (lines
    504-1162) starts the HTTP listener first, initializes MongoDB in the
    background exactly once, and carries the hash-accepting
    `checkAdminPassword` middleware plus the public `GET /api/admin-password`
    route and the Mongo-backed order routes.
  * `src/unnamed/part_001` — the file-backed variant: availability lives in
    the module-level objects `productAvailabilityDB` / `flavorAvailabilityDB`,
    bulk routes merge the patch into them key by key and then call
    `saveDataToFile`, which swallows its own errors.

JavaScript objects are embedded as association lists `List (String × Bool)`;
property assignment `db[k] = v` is `setKey`, `Object.keys(patch).forEach`
assignment is `applyPatch` (a left fold of `setKey`), and property read is
`lookupKey`.
-/

namespace Bebcom

/-- An availability map: a JS object mapping item keys to booleans,
embedded as an association list in insertion order. -/
abbrev AvailMap := List (String × Bool)

/-- Property read `m[k]`: the value at the first occurrence of `k`. -/
def lookupKey : AvailMap → String → Option Bool
  | [], _ => none
  | (k', v) :: rest, k => if k' = k then some v else lookupKey rest k

/-- Property assignment `m[k] = v`: overwrite in place if the key exists,
append otherwise (JS object insertion-order semantics). -/
def setKey : AvailMap → String → Bool → AvailMap
  | [], k, v => [(k, v)]
  | (k', v') :: rest, k, v =>
      if k' = k then (k, v) :: rest else (k', v') :: setKey rest k v

/-- `Object.keys(patch).forEach(k => db[k] = patch[k])` — the file-backed
bulk routes' merge loop (src/unnamed/part_001 lines 270-272 and 310-312). -/
def applyPatch (m : AvailMap) (p : AvailMap) : AvailMap :=
  p.foldl (fun acc kv => setKey acc kv.1 kv.2) m

/-- The value the fold leaves for key `k`: the value at the last occurrence
of `k` in the patch, if any. -/
def lastVal : AvailMap → String → Option Bool
  | [], _ => none
  | (k', v) :: rest, k =>
      match lastVal rest k with
      | some w => some w
      | none => if k' = k then some v else none

theorem lookupKey_setKey_self (m : AvailMap) (k : String) (v : Bool) :
    lookupKey (setKey m k v) k = some v := by
  induction m with
  | nil => simp [setKey, lookupKey]
  | cons hd tl ih =>
      by_cases h : hd.1 = k
      · simp [setKey, h, lookupKey]
      · simpa [setKey, h, lookupKey] using ih

theorem lookupKey_setKey_ne (m : AvailMap) (k k' : String) (v : Bool)
    (h : k' ≠ k) : lookupKey (setKey m k v) k' = lookupKey m k' := by
  induction m with
  | nil => simp [setKey, lookupKey, Ne.symm h]
  | cons hd tl ih =>
      by_cases hk : hd.1 = k
      · subst hk
        simp [setKey, lookupKey, Ne.symm h]
      · by_cases hk' : hd.1 = k'
        · simp [setKey, hk, lookupKey, hk', h]
        · simp [setKey, hk, lookupKey, hk', ih]

/-- After the merge loop, key `k` holds the patch's last value for `k` when
the patch mentions `k`, and the original value otherwise. -/
theorem lookupKey_applyPatch (m p : AvailMap) (k : String) :
    lookupKey (applyPatch m p) k =
      match lastVal p k with
      | some v => some v
      | none => lookupKey m k := by
  induction p generalizing m with
  | nil => simp [applyPatch, lastVal]
  | cons hd tl ih =>
      show lookupKey (applyPatch (setKey m hd.1 hd.2) tl) k = _
      rw [ih]
      cases htl : lastVal tl k with
      | some w => simp [lastVal, htl]
      | none =>
          by_cases hk : hd.1 = k
          · subst hk
            simp [lastVal, htl, lookupKey_setKey_self]
          · simp [lastVal, htl, hk, lookupKey_setKey_ne _ _ _ _ (Ne.symm hk)]

theorem lastVal_eq_none_of_not_mem (p : AvailMap) (k : String)
    (h : k ∉ p.map Prod.fst) : lastVal p k = none := by
  induction p with
  | nil => rfl
  | cons hd tl ih =>
      simp only [List.map_cons, List.mem_cons] at h
      push_neg at h
      rw [lastVal, ih h.2]
      simp [Ne.symm h.1]

theorem lastVal_of_mem_nodup (p : AvailMap) (k : String) (v : Bool)
    (hnd : (p.map Prod.fst).Nodup) (hmem : (k, v) ∈ p) :
    lastVal p k = some v := by
  induction p with
  | nil => cases hmem
  | cons hd tl ih =>
      simp only [List.map_cons, List.nodup_cons] at hnd
      rcases List.mem_cons.mp hmem with heq | htl
      · subst heq
        have : k ∉ tl.map Prod.fst := hnd.1
        rw [lastVal, lastVal_eq_none_of_not_mem tl k this]
        simp
      · rw [lastVal, ih hnd.2 htl]

/-- Keys not mentioned in the patch are untouched by the merge loop. -/
theorem lookupKey_applyPatch_not_mem (m p : AvailMap) (k : String)
    (h : k ∉ p.map Prod.fst) :
    lookupKey (applyPatch m p) k = lookupKey m k := by
  rw [lookupKey_applyPatch, lastVal_eq_none_of_not_mem p k h]

/-- Keys mentioned in a duplicate-free patch get exactly the patch's value. -/
theorem lookupKey_applyPatch_mem (m p : AvailMap) (k : String) (v : Bool)
    (hnd : (p.map Prod.fst).Nodup) (hmem : (k, v) ∈ p) :
    lookupKey (applyPatch m p) k = some v := by
  rw [lookupKey_applyPatch, lastVal_of_mem_nodup p k v hnd hmem]

theorem lookupKey_of_mem_nodup (p : AvailMap) (k : String) (v : Bool)
    (hnd : (p.map Prod.fst).Nodup) (hmem : (k, v) ∈ p) :
    lookupKey p k = some v := by
  induction p with
  | nil => cases hmem
  | cons hd tl ih =>
      simp only [List.map_cons, List.nodup_cons] at hnd
      rcases List.mem_cons.mp hmem with heq | htl
      · subst heq
        simp [lookupKey]
      · have hk : hd.1 ≠ k := by
          intro h
          exact hnd.1 (h ▸ List.mem_map_of_mem Prod.fst htl)
        rw [lookupKey]
        simp only [hk, if_false]
        exact ih hnd.2 htl

theorem setKey_eq_self (m : AvailMap) (k : String) (v : Bool)
    (h : lookupKey m k = some v) : setKey m k v = m := by
  induction m with
  | nil => simp [lookupKey] at h
  | cons hd tl ih =>
      obtain ⟨k', v'⟩ := hd
      by_cases hk : k' = k
      · subst hk
        simp only [lookupKey, if_pos, Option.some.injEq] at h
        simp [setKey, h]
      · rw [lookupKey] at h
        simp only [hk, if_false] at h
        simp [setKey, hk, ih h]

theorem applyPatch_eq_self (m p : AvailMap)
    (h : ∀ kv ∈ p, lookupKey m kv.1 = some kv.2) : applyPatch m p = m := by
  induction p with
  | nil => rfl
  | cons hd tl ih =>
      show applyPatch (setKey m hd.1 hd.2) tl = m
      rw [setKey_eq_self m hd.1 hd.2 (h hd (List.mem_cons_self hd tl))]
      exact ih fun kv hkv => h kv (List.mem_cons_of_mem hd hkv)

/-- The merge loop is idempotent on duplicate-free patches: merging the same
patch a second time is the identity. -/
theorem applyPatch_idem (m p : AvailMap) (hnd : (p.map Prod.fst).Nodup) :
    applyPatch (applyPatch m p) p = applyPatch m p := by
  apply applyPatch_eq_self
  intro kv hkv
  exact lookupKey_applyPatch_mem m p kv.1 kv.2 hnd hkv

/-! ## JavaScript values at the request boundary

The bulk routes validate the request-body field with
`if (!x || typeof x !== 'object')`.  `JsVal` models the JS value of that
field; `jsFalsy` and `jsTypeOf` mirror JS truthiness and `typeof`. -/

/-- A JavaScript value as it can appear in the parsed JSON request body
field `productAvailability` / `flavorAvailability`. -/
inductive JsVal where
  | undef : JsVal
  | nullV : JsVal
  | boolV : Bool → JsVal
  | numV : Int → JsVal
  | strV : String → JsVal
  | obj : AvailMap → JsVal
deriving DecidableEq

/-- JS falsiness: `!x` is true exactly for `undefined`, `null`, `false`,
`0` and the empty string; every object (including `\x7b\x7d`) is truthy. -/
def jsFalsy : JsVal → Bool
  | .undef => true
  | .nullV => true
  | .boolV b => !b
  | .numV n => n == 0
  | .strV s => s == ""
  | .obj _ => false

/-- The JS `typeof` operator (note `typeof null === 'object'`). -/
def jsTypeOf : JsVal → String
  | .undef => "undefined"
  | .nullV => "object"
  | .boolV _ => "boolean"
  | .numV _ => "number"
  | .strV _ => "string"
  | .obj _ => "object"

/-! ## MongoDB-backed variant (src/backend/server.js, first server)

State: the `isConnected` flag and the contents of the `products` / `flavors`
collections, each holding at most one `{ type: 'availability' }` document,
plus the `orders` collection.  Nondeterministic environment outcomes (whether
a Mongo operation succeeds or throws) are passed as explicit Booleans. -/

/-- The single `{ type: 'availability', data, lastUpdated }` document of a
kind's collection. -/
structure AvailDoc where
  data : AvailMap
  lastUpdated : String
deriving DecidableEq

/-- An order document as inserted by `POST /api/create-payment`
(fields not read back by any route under verification are kept as plain
strings/integers). -/
structure Order where
  orderId : String
  customer : String
  totalAmount : Int
  status : String
  paid : Bool
  createdAt : String
deriving DecidableEq

/-- Process-plus-database state of the MongoDB-backed variant. -/
structure MongoState where
  isConnected : Bool
  products : Option AvailDoc
  flavors : Option AvailDoc
  orders : List Order
deriving DecidableEq

/-- Which of the two availability domains an operation targets. -/
inductive Kind where
  | products : Kind
  | flavors : Kind
deriving DecidableEq

/-- Response of the availability GET routes: HTTP status, `success`, the
availability-map payload (`productAvailability` / `flavorAvailability` on
success, the empty `data` field on error), `lastUpdated`, `error`. -/
structure GetAvailResp where
  httpStatus : Nat
  success : Bool
  data : AvailMap
  lastUpdated : Option String
  error : Option String
deriving DecidableEq

/-- Response of the admin bulk POST routes. -/
structure BulkResp where
  httpStatus : Nat
  success : Bool
  count : Option Nat
  error : Option String
deriving DecidableEq

/-- `GET /api/product-availability` (server.js lines 124-149): when
`isConnected` is false, responds 500 with `success:false` and an empty
`data` field; when connected it serves `findOne`'s `data` (or a throwing
`findOne`, `dbOk = false`, yields the 500 catch branch).  `now` stands for
`new Date().toISOString()`. -/
def getProductAvailability (s : MongoState) (dbOk : Bool) (now : String) :
    GetAvailResp :=
  if !s.isConnected then
    { httpStatus := 500, success := false, data := [],
      lastUpdated := none, error := some "Database não conectado" }
  else if dbOk then
    { httpStatus := 200, success := true,
      data := (s.products.map AvailDoc.data).getD [],
      lastUpdated := some ((s.products.map AvailDoc.lastUpdated).getD now),
      error := none }
  else
    { httpStatus := 500, success := false, data := [],
      lastUpdated := none, error := some "Erro ao buscar produtos" }

/-- `GET /api/flavor-availability` (server.js lines 152-177): identical to
the products route except that the disconnected branch uses `res.json`
without `res.status(500)`, so it answers HTTP 200 with `success:false`. -/
def getFlavorAvailability (s : MongoState) (dbOk : Bool) (now : String) :
    GetAvailResp :=
  if !s.isConnected then
    { httpStatus := 200, success := false, data := [],
      lastUpdated := none, error := some "Database não conectado" }
  else if dbOk then
    { httpStatus := 200, success := true,
      data := (s.flavors.map AvailDoc.data).getD [],
      lastUpdated := some ((s.flavors.map AvailDoc.lastUpdated).getD now),
      error := none }
  else
    { httpStatus := 500, success := false, data := [],
      lastUpdated := none, error := some "Erro ao buscar sabores" }

/-- `POST /api/admin/product-availability/bulk` (server.js lines 180-225),
after `checkAdminPassword` has passed.  `v` is the `productAvailability`
body field; `persistOk` is whether `updateOne` succeeds or throws; `now` is
`new Date().toISOString()`.  On success the whole `data` field is `$set` to
the submitted object. -/
def postProductBulk (s : MongoState) (v : JsVal) (persistOk : Bool)
    (now : String) : MongoState × BulkResp :=
  if !s.isConnected then
    (s, { httpStatus := 500, success := false, count := none,
          error := some "Database não conectado" })
  else if jsFalsy v || !(jsTypeOf v == "object") then
    (s, { httpStatus := 400, success := false, count := none,
          error := some "Dados inválidos" })
  else
    match v with
    | .obj p =>
        if persistOk then
          ({ s with products := some { data := p, lastUpdated := now } },
           { httpStatus := 200, success := true, count := some p.length,
             error := none })
        else
          (s, { httpStatus := 500, success := false, count := none,
                error := some "Erro ao salvar produtos" })
    | _ =>
        (s, { httpStatus := 400, success := false, count := none,
              error := some "Dados inválidos" })

/-- `POST /api/admin/flavor-availability/bulk` (server.js lines 228-273):
verbatim the products route with the `flavors` collection and field. -/
def postFlavorBulk (s : MongoState) (v : JsVal) (persistOk : Bool)
    (now : String) : MongoState × BulkResp :=
  if !s.isConnected then
    (s, { httpStatus := 500, success := false, count := none,
          error := some "Database não conectado" })
  else if jsFalsy v || !(jsTypeOf v == "object") then
    (s, { httpStatus := 400, success := false, count := none,
          error := some "Dados inválidos" })
  else
    match v with
    | .obj p =>
        if persistOk then
          ({ s with flavors := some { data := p, lastUpdated := now } },
           { httpStatus := 200, success := true, count := some p.length,
             error := none })
        else
          (s, { httpStatus := 500, success := false, count := none,
                error := some "Erro ao salvar sabores" })
    | _ =>
        (s, { httpStatus := 400, success := false, count := none,
              error := some "Dados inválidos" })

/-- The availability map currently stored for a kind (the `data` field of
the kind's availability document, `\x7b\x7d` if the document is absent). -/
def MongoState.mapOf (s : MongoState) : Kind → AvailMap
  | .products => (s.products.map AvailDoc.data).getD []
  | .flavors => (s.flavors.map AvailDoc.data).getD []

/-- Kind-indexed view of the two GET routes. -/
def getAvailability (s : MongoState) (kind : Kind) (dbOk : Bool)
    (now : String) : GetAvailResp :=
  match kind with
  | .products => getProductAvailability s dbOk now
  | .flavors => getFlavorAvailability s dbOk now

/-- Kind-indexed view of the two bulk POST routes. -/
def postBulk (s : MongoState) (kind : Kind) (v : JsVal) (persistOk : Bool)
    (now : String) : MongoState × BulkResp :=
  match kind with
  | .products => postProductBulk s v persistOk now
  | .flavors => postFlavorBulk s v persistOk now

/-! ## File-backed variant (src/unnamed/part_001)

State: the module-level objects `productAvailabilityDB` and
`flavorAvailabilityDB`, plus the contents of `data.json` (as last
successfully written).  There is no connection flag in this variant. -/

/-- The persisted shape of `data.json`. -/
structure FileData where
  productAvailabilityDB : AvailMap
  flavorAvailabilityDB : AvailMap
  lastUpdated : String
deriving DecidableEq

/-- In-process state of the file-backed variant: the two module-level maps
and the file (`none` if `data.json` does not exist). -/
structure FileState where
  productDB : AvailMap
  flavorDB : AvailMap
  file : Option FileData
deriving DecidableEq

/-- `saveDataToFile` (part_001 lines 74-88): writes both maps to
`data.json`; when the write throws (`writeOk = false`) the error is caught
and only logged — the function never rethrows, so its caller always
proceeds as if the save succeeded. -/
def saveDataToFile (s : FileState) (writeOk : Bool) (now : String) :
    FileState :=
  if writeOk then
    { s with file := some { productAvailabilityDB := s.productDB,
                            flavorAvailabilityDB := s.flavorDB,
                            lastUpdated := now } }
  else s

/-- `GET /api/product-availability` (part_001 lines 175-182): always
responds 200 with the in-memory map; there is no offline/degraded flag. -/
def getProductAvailabilityFile (s : FileState) : GetAvailResp :=
  { httpStatus := 200, success := true, data := s.productDB,
    lastUpdated := none, error := none }

/-- `GET /api/flavor-availability` (part_001 lines 185-192). -/
def getFlavorAvailabilityFile (s : FileState) : GetAvailResp :=
  { httpStatus := 200, success := true, data := s.flavorDB,
    lastUpdated := none, error := none }

/-- `POST /api/admin/product-availability/bulk` (part_001 lines 258-295),
after the JWT gate has passed.  Validation is the same `!x || typeof x`
check; then the patch is merged into the in-memory map key by key, and only
afterwards is `saveDataToFile` awaited (which swallows its own errors), so
the route answers `success:true` whether or not the write landed. -/
def postProductBulkFile (s : FileState) (v : JsVal) (writeOk : Bool)
    (now : String) : FileState × BulkResp :=
  if jsFalsy v || !(jsTypeOf v == "object") then
    (s, { httpStatus := 400, success := false, count := none,
          error := some "Dados inválidos" })
  else
    match v with
    | .obj p =>
        let s' := { s with productDB := applyPatch s.productDB p }
        (saveDataToFile s' writeOk now,
         { httpStatus := 200, success := true, count := some p.length,
           error := none })
    | _ =>
        (s, { httpStatus := 400, success := false, count := none,
              error := some "Dados inválidos" })

/-- `POST /api/admin/flavor-availability/bulk` (part_001 lines 298-335):
verbatim the products route on `flavorAvailabilityDB`. -/
def postFlavorBulkFile (s : FileState) (v : JsVal) (writeOk : Bool)
    (now : String) : FileState × BulkResp :=
  if jsFalsy v || !(jsTypeOf v == "object") then
    (s, { httpStatus := 400, success := false, count := none,
          error := some "Dados inválidos" })
  else
    match v with
    | .obj p =>
        let s' := { s with flavorDB := applyPatch s.flavorDB p }
        (saveDataToFile s' writeOk now,
         { httpStatus := 200, success := true, count := some p.length,
           error := none })
    | _ =>
        (s, { httpStatus := 400, success := false, count := none,
              error := some "Dados inválidos" })

/-- The in-memory map of a kind in the file-backed variant. -/
def FileState.mapOf (s : FileState) : Kind → AvailMap
  | .products => s.productDB
  | .flavors => s.flavorDB

/-- Kind-indexed view of the file-backed bulk routes. -/
def postBulkFile (s : FileState) (kind : Kind) (v : JsVal) (writeOk : Bool)
    (now : String) : FileState × BulkResp :=
  match kind with
  | .products => postProductBulkFile s v writeOk now
  | .flavors => postFlavorBulkFile s v writeOk now

/-- Kind-indexed view of the file-backed GET routes. -/
def getAvailabilityFile (s : FileState) (kind : Kind) : GetAvailResp :=
  match kind with
  | .products => getProductAvailabilityFile s
  | .flavors => getFlavorAvailabilityFile s

/-! ## Connection initialization (src/backend/server.js)

Both servers in server.js connect to MongoDB with a single
`client.connect()` call wrapped in try/catch.  The catch block only logs
and records the disconnected flag; nothing in the repository schedules
another attempt, a backoff timer, or a reconnect (the 14-minute auto-ping
targets the HTTP `/health` route of the service itself, not the store). -/

/-- Outcome of the startup connection logic: how many `client.connect()`
calls were made, the resulting connected flag, and whether any further
attempt was scheduled for after a failure. -/
structure ConnInit where
  attemptsMade : Nat
  connected : Bool
  retryScheduled : Bool
deriving DecidableEq

/-- `connectDB` (server.js lines 27-51): if `MONGODB_URI` is unset, return
false without attempting; otherwise attempt one `client.connect()`; the
catch branch returns false with no retry.  `startServer` (lines 464-481)
calls this exactly once and proceeds to listen regardless. -/
def connectDB (hasUri : Bool) (connectOk : Bool) : ConnInit :=
  if !hasUri then
    { attemptsMade := 0, connected := false, retryScheduled := false }
  else if connectOk then
    { attemptsMade := 1, connected := true, retryScheduled := false }
  else
    { attemptsMade := 1, connected := false, retryScheduled := false }

/-- `initializeMongoDB` (server.js lines 697-741): scheduled once, 100 ms
after the listener starts; one `client.connect()` plus ping; the catch
branch logs, sets `app.locals.isDBConnected = false`, and schedules
nothing. -/
def initializeMongoDB (hasUri : Bool) (connectOk : Bool) : ConnInit :=
  if !hasUri then
    { attemptsMade := 0, connected := false, retryScheduled := false }
  else if connectOk then
    { attemptsMade := 1, connected := true, retryScheduled := false }
  else
    { attemptsMade := 1, connected := false, retryScheduled := false }

/-! ## Admin authentication (src/backend/server.js, second server)

`checkAdminPassword` (lines 764-800) and `GET /api/admin-password`
(lines 805-818).  `crypto.createHash('sha256')...digest('hex')` is
abstracted as an arbitrary function `sha256hex : String → String`; both
the middleware and the public route are parameterized by the same
function, the configured password and the current year, exactly as both
call the same library on the same inputs. -/

/-- Outcome of the authentication middleware. -/
inductive AuthResult where
  | authorized : AuthResult
  | unauthorized401 : AuthResult
deriving DecidableEq

/-- `ADMIN_PASSWORD = process.env.ADMIN_PASSWORD || 'Bebcom25*'`: the env
value if set and truthy (non-empty), else the literal fallback. -/
def adminPasswordOf (env : Option String) : String :=
  match env with
  | some p => if p == "" then "Bebcom25*" else p
  | none => "Bebcom25*"

/-- `checkAdminPassword` (server.js lines 764-800): the provided credential
(body, either header, or query; `none` if all are absent, and the JS falsy
check also rejects an empty string) is accepted when it equals the
plaintext password, its unsalted SHA-256 hex digest, or the digest of
`password + 'bebcom_' + currentYear`. -/
def checkAdminPassword (sha256hex : String → String) (adminPassword : String)
    (currentYear : Nat) (provided : Option String) : AuthResult :=
  match provided with
  | none => .unauthorized401
  | some password =>
      if password == "" then .unauthorized401
      else
        let expectedHash := sha256hex adminPassword
        let hashWithSalt :=
          sha256hex (adminPassword ++ "bebcom_" ++ toString currentYear)
        if password == adminPassword || password == expectedHash ||
           password == hashWithSalt then
          .authorized
        else .unauthorized401

/-- Response of `GET /api/admin-password`. -/
structure AdminPasswordResp where
  success : Bool
  passwordHash : String
  salt : String
deriving DecidableEq

/-- `GET /api/admin-password` (server.js lines 805-818): an unauthenticated
route returning the unsalted SHA-256 hex digest of the admin password and
the year salt. -/
def adminPasswordRoute (sha256hex : String → String) (adminPassword : String)
    (currentYear : Nat) : AdminPasswordResp :=
  { success := true,
    passwordHash := sha256hex adminPassword,
    salt := "bebcom_" ++ toString currentYear }

/-! ## Order status (src/backend/server.js setupMongoRoutes; src/unnamed/part_001) -/

/-- Response of `GET /api/order-status/:orderId`. -/
structure OrderStatusResp where
  httpStatus : Nat
  success : Bool
  orderId : String
  paid : Bool
  status : String
deriving DecidableEq

/-- `GET /api/order-status/:orderId`, file-backed variant (part_001 lines
235-243): a constant response reporting every order as paid. -/
def orderStatusFile (orderId : String) : OrderStatusResp :=
  { httpStatus := 200, success := true, orderId := orderId,
    paid := true, status := "paid" }

/-- `POST /api/create-payment`, MongoDB variant (server.js lines
1061-1095): inserts the order with `status: 'pending', paid: false`. -/
def createPaymentMongo (orders : List Order) (orderId customer : String)
    (totalAmount : Int) (now : String) : List Order :=
  orders ++ [{ orderId := orderId, customer := customer,
               totalAmount := totalAmount, status := "pending",
               paid := false, createdAt := now }]

/-- `GET /api/order-status/:orderId`, MongoDB variant (server.js lines
1098-1117): `findOne(\x7borderId\x7d)` then
`paid: order?.paid || false, status: order?.status || 'pending'` —
an absent order yields `success:true, paid:false, status:'pending'`. -/
def orderStatusMongo (orders : List Order) (orderId : String) :
    OrderStatusResp :=
  let order? := orders.find? (fun o => o.orderId == orderId)
  { httpStatus := 200, success := true, orderId := orderId,
    paid := (order?.map Order.paid).getD false,
    status :=
      match order? with
      | some o => if o.status == "" then "pending" else o.status
      | none => "pending" }

/-! ## Helper lemmas about the routes -/

/-- A successful bulk write in the file-backed variant leaves the targeted
in-memory map as the key-by-key merge of the old map with the patch,
whether or not the file write succeeded. -/
theorem postBulkFile_mapOf (fs : FileState) (kind : Kind) (p : AvailMap)
    (writeOk : Bool) (now : String) :
    ((postBulkFile fs kind (.obj p) writeOk now).1).mapOf kind
      = applyPatch (fs.mapOf kind) p := by
  cases kind <;> cases writeOk <;>
    simp [postBulkFile, postProductBulkFile, postFlavorBulkFile, jsFalsy,
      jsTypeOf, saveDataToFile, FileState.mapOf]

/-- The file-backed bulk route always answers 200/success on an object
patch, regardless of whether the file write landed. -/
theorem postBulkFile_resp (fs : FileState) (kind : Kind) (p : AvailMap)
    (writeOk : Bool) (now : String) :
    (postBulkFile fs kind (.obj p) writeOk now).2
      = { httpStatus := 200, success := true, count := some p.length,
          error := none } := by
  cases kind <;>
    simp [postBulkFile, postProductBulkFile, postFlavorBulkFile, jsFalsy,
      jsTypeOf]

/-- A connected, successfully persisted Mongo bulk write replaces the
stored map of the targeted kind wholesale with the patch. -/
theorem postBulk_mapOf (s : MongoState) (kind : Kind) (p : AvailMap)
    (now : String) (hconn : s.isConnected = true) :
    ((postBulk s kind (.obj p) true now).1).mapOf kind = p := by
  cases kind <;>
    simp [postBulk, postProductBulk, postFlavorBulk, hconn, jsFalsy,
      jsTypeOf, MongoState.mapOf]

/-- A connected, successfully persisted Mongo bulk write keeps the
connection flag. -/
theorem postBulk_isConnected (s : MongoState) (kind : Kind) (p : AvailMap)
    (now : String) (hconn : s.isConnected = true) :
    ((postBulk s kind (.obj p) true now).1).isConnected = true := by
  cases kind <;>
    simp [postBulk, postProductBulk, postFlavorBulk, hconn, jsFalsy,
      jsTypeOf]

/-- A connected, successfully persisted Mongo bulk write answers
200/success with the key count. -/
theorem postBulk_resp (s : MongoState) (kind : Kind) (p : AvailMap)
    (now : String) (hconn : s.isConnected = true) :
    (postBulk s kind (.obj p) true now).2
      = { httpStatus := 200, success := true, count := some p.length,
          error := none } := by
  cases kind <;>
    simp [postBulk, postProductBulk, postFlavorBulk, hconn, jsFalsy,
      jsTypeOf]

/-- A connected read with a healthy `findOne` serves the stored map of the
kind. -/
theorem getAvailability_connected (s : MongoState) (kind : Kind)
    (now : String) (hconn : s.isConnected = true) :
    (getAvailability s kind true now).success = true ∧
    (getAvailability s kind true now).data = s.mapOf kind := by
  cases kind <;>
    simp [getAvailability, getProductAvailability, getFlavorAvailability,
      hconn, MongoState.mapOf]

/-! ## Claim theorems -/

/-- Claim C1, counterexample.  The claim says every bulk update merges the
patch into the existing map so that unmentioned keys keep their value.  In
the MongoDB variant (server.js lines 198-208) the update is
`$set: data = patch`, a wholesale replacement: starting from the stored map
holding a ↦ true, b ↦ false, a successful bulk update with patch b ↦ true
leaves key "a" absent (the claim demands a ↦ true) and the stored map is
exactly the patch. -/
theorem claim_C1_counterexample :
    (postProductBulk
        { isConnected := true,
          products := some { data := [("a", true), ("b", false)],
                             lastUpdated := "t0" },
          flavors := none, orders := [] }
        (.obj [("b", true)]) true "t1").2.success = true ∧
    ¬ (lookupKey
        ((postProductBulk
            { isConnected := true,
              products := some { data := [("a", true), ("b", false)],
                                 lastUpdated := "t0" },
              flavors := none, orders := [] }
            (.obj [("b", true)]) true "t1").1.mapOf .products) "a"
        = some true) ∧
    lookupKey
        ((postProductBulk
            { isConnected := true,
              products := some { data := [("a", true), ("b", false)],
                                 lastUpdated := "t0" },
              flavors := none, orders := [] }
            (.obj [("b", true)]) true "t1").1.mapOf .products) "a" = none ∧
    ((postProductBulk
        { isConnected := true,
          products := some { data := [("a", true), ("b", false)],
                             lastUpdated := "t0" },
          flavors := none, orders := [] }
        (.obj [("b", true)]) true "t1").1.mapOf .products)
      = [("b", true)] := by
  decide

/-- Claim C1, amended.  Only the file-backed variant's bulk update
(part_001) is a key-by-key merge: patch keys take the patch's value and
unmentioned keys are untouched.  The MongoDB variant's bulk update
(server.js) instead replaces the stored map wholesale with the patch. -/
theorem claim_C1_merge_vs_replace (fs : FileState) (s : MongoState)
    (kind : Kind) (p : AvailMap) (writeOk : Bool) (now : String)
    (hconn : s.isConnected = true) :
    (∀ k, k ∉ p.map Prod.fst →
        lookupKey ((postBulkFile fs kind (.obj p) writeOk now).1.mapOf kind) k
          = lookupKey (fs.mapOf kind) k) ∧
    (∀ k v, (p.map Prod.fst).Nodup → (k, v) ∈ p →
        lookupKey ((postBulkFile fs kind (.obj p) writeOk now).1.mapOf kind) k
          = some v) ∧
    ((postBulk s kind (.obj p) true now).1.mapOf kind) = p := by
  refine ⟨?_, ?_, postBulk_mapOf s kind p now hconn⟩
  · intro k hk
    rw [postBulkFile_mapOf]
    exact lookupKey_applyPatch_not_mem _ p k hk
  · intro k v hnd hmem
    rw [postBulkFile_mapOf]
    exact lookupKey_applyPatch_mem _ p k v hnd hmem

/-- Claim C1 amended, witness: a concrete run of both variants. -/
theorem claim_C1_witness :
    ({ isConnected := true, products := none, flavors := none,
       orders := [] } : MongoState).isConnected = true ∧
    lookupKey
        ((postBulkFile
            { productDB := [("a", true), ("b", false)], flavorDB := [],
              file := none }
            .products (.obj [("b", true)]) true "t1").1.mapOf .products) "a"
      = some true ∧
    ((postBulk
        { isConnected := true, products := none, flavors := none,
          orders := [] }
        .products (.obj [("b", true)]) true "t1").1.mapOf .products)
      = [("b", true)] := by
  have h := claim_C1_merge_vs_replace
    { productDB := [("a", true), ("b", false)], flavorDB := [],
      file := none }
    { isConnected := true, products := none, flavors := none, orders := [] }
    .products [("b", true)] true "t1" rfl
  refine ⟨rfl, ?_, h.2.2⟩
  have := h.1 "a" (by decide)
  rw [this]
  decide

/-- Claim C2: in the MongoDB variant — the only one that has a connection
state — a bulk write issued while `isConnected` is false is refused with
the 500 "Database não conectado" error and the state is untouched, so any
key that was absent from the stored map before the refused write is still
absent afterwards. -/
theorem claim_C2_fail_closed (s : MongoState) (kind : Kind) (v : JsVal)
    (persistOk : Bool) (now : String) (hdisc : s.isConnected = false) :
    (postBulk s kind v persistOk now).2.httpStatus = 500 ∧
    (postBulk s kind v persistOk now).2.success = false ∧
    (postBulk s kind v persistOk now).2.error = some "Database não conectado" ∧
    (postBulk s kind v persistOk now).1 = s ∧
    ∀ k, lookupKey (s.mapOf kind) k = none →
      lookupKey ((postBulk s kind v persistOk now).1.mapOf kind) k = none := by
  have hstate : (postBulk s kind v persistOk now).1 = s := by
    cases kind <;> simp [postBulk, postProductBulk, postFlavorBulk, hdisc]
  refine ⟨?_, ?_, ?_, hstate, ?_⟩
  · cases kind <;> simp [postBulk, postProductBulk, postFlavorBulk, hdisc]
  · cases kind <;> simp [postBulk, postProductBulk, postFlavorBulk, hdisc]
  · cases kind <;> simp [postBulk, postProductBulk, postFlavorBulk, hdisc]
  · intro k hk
    rw [hstate]
    exact hk

/-- Claim C2, witness: a disconnected state refuses the patch x ↦ true and
key "x" stays absent. -/
theorem claim_C2_witness :
    ({ isConnected := false,
       products := some { data := [("a", true)], lastUpdated := "t0" },
       flavors := none, orders := [] } : MongoState).isConnected = false ∧
    (postBulk
        { isConnected := false,
          products := some { data := [("a", true)], lastUpdated := "t0" },
          flavors := none, orders := [] }
        .products (.obj [("x", true)]) true "t1").2.httpStatus = 500 ∧
    lookupKey
        ((postBulk
            { isConnected := false,
              products := some { data := [("a", true)], lastUpdated := "t0" },
              flavors := none, orders := [] }
            .products (.obj [("x", true)]) true "t1").1.mapOf .products) "x"
      = none := by
  have h := claim_C2_fail_closed
    { isConnected := false,
      products := some { data := [("a", true)], lastUpdated := "t0" },
      flavors := none, orders := [] }
    .products (.obj [("x", true)]) true "t1" rfl
  exact ⟨rfl, h.1, h.2.2.2.2 "x" (by decide)⟩

/-- Claim C3, counterexample.  The claim says a failed persistence step
leaves the in-process map unchanged and fails with a persist error.  In
the file-backed variant the route mutates the in-memory map first and
`saveDataToFile` swallows its own exception, so with a failing file write
the call still answers 200/success and the in-memory map has absorbed the
patch, diverging from the unchanged file. -/
theorem claim_C3_counterexample :
    (postProductBulkFile
        { productDB := [], flavorDB := [],
          file := some { productAvailabilityDB := [],
                         flavorAvailabilityDB := [], lastUpdated := "t0" } }
        (.obj [("x", true)]) false "t1").2.success = true ∧
    (postProductBulkFile
        { productDB := [], flavorDB := [],
          file := some { productAvailabilityDB := [],
                         flavorAvailabilityDB := [], lastUpdated := "t0" } }
        (.obj [("x", true)]) false "t1").2.httpStatus = 200 ∧
    (postProductBulkFile
        { productDB := [], flavorDB := [],
          file := some { productAvailabilityDB := [],
                         flavorAvailabilityDB := [], lastUpdated := "t0" } }
        (.obj [("x", true)]) false "t1").1.productDB = [("x", true)] ∧
    (postProductBulkFile
        { productDB := [], flavorDB := [],
          file := some { productAvailabilityDB := [],
                         flavorAvailabilityDB := [], lastUpdated := "t0" } }
        (.obj [("x", true)]) false "t1").1.file
      = some { productAvailabilityDB := [], flavorAvailabilityDB := [],
               lastUpdated := "t0" } := by
  decide

/-- Claim C3, amended.  When the file write fails, the file-backed bulk
update still answers 200/success with the key count, the in-memory map for
the kind retains the applied patch (it was mutated before the save), and
only `data.json` is left unchanged — store and cache diverge instead of
acting as one atomic unit. -/
theorem claim_C3_persist_failure (fs : FileState) (kind : Kind)
    (p : AvailMap) (now : String) :
    (postBulkFile fs kind (.obj p) false now).1.mapOf kind
      = applyPatch (fs.mapOf kind) p ∧
    (postBulkFile fs kind (.obj p) false now).1.file = fs.file ∧
    (postBulkFile fs kind (.obj p) false now).2.success = true ∧
    (postBulkFile fs kind (.obj p) false now).2.httpStatus = 200 := by
  refine ⟨postBulkFile_mapOf fs kind p false now, ?_, ?_, ?_⟩
  · cases kind <;>
      simp [postBulkFile, postProductBulkFile, postFlavorBulkFile, jsFalsy,
        jsTypeOf, saveDataToFile]
  · rw [postBulkFile_resp]
  · rw [postBulkFile_resp]

/-- Claim C4, counterexample.  The claim says availability reads always
succeed and, while disconnected, serve the last-known map with
degraded=true.  In the MongoDB variant a disconnected products read
answers HTTP 500 with `success:false` and an empty map — the stored value
p1 ↦ true is not served — and the flavors read likewise answers
`success:false` with an empty map (at HTTP 200). -/
theorem claim_C4_counterexample :
    (getProductAvailability
        { isConnected := false,
          products := some { data := [("p1", true)], lastUpdated := "t0" },
          flavors := some { data := [("f1", true)], lastUpdated := "t0" },
          orders := [] } true "t1").success = false ∧
    (getProductAvailability
        { isConnected := false,
          products := some { data := [("p1", true)], lastUpdated := "t0" },
          flavors := some { data := [("f1", true)], lastUpdated := "t0" },
          orders := [] } true "t1").httpStatus = 500 ∧
    lookupKey
        (getProductAvailability
          { isConnected := false,
            products := some { data := [("p1", true)], lastUpdated := "t0" },
            flavors := some { data := [("f1", true)], lastUpdated := "t0" },
            orders := [] } true "t1").data "p1" = none ∧
    (getFlavorAvailability
        { isConnected := false,
          products := some { data := [("p1", true)], lastUpdated := "t0" },
          flavors := some { data := [("f1", true)], lastUpdated := "t0" },
          orders := [] } true "t1").success = false ∧
    lookupKey
        (getFlavorAvailability
          { isConnected := false,
            products := some { data := [("p1", true)], lastUpdated := "t0" },
            flavors := some { data := [("f1", true)], lastUpdated := "t0" },
            orders := [] } true "t1").data "f1" = none := by
  decide

/-- Claim C4, amended.  While disconnected, the MongoDB variant's
availability reads are error responses with an empty map — HTTP 500 for
products, HTTP 200 but `success:false` for flavors — with no degraded
flag and no last-known data.  The file-backed variant's reads always
succeed with the in-memory map, but carry no degraded flag either. -/
theorem claim_C4_disconnected_reads (s : MongoState) (fs : FileState)
    (dbOk : Bool) (now : String) (hdisc : s.isConnected = false) :
    (getProductAvailability s dbOk now).httpStatus = 500 ∧
    (getProductAvailability s dbOk now).success = false ∧
    (getProductAvailability s dbOk now).data = [] ∧
    (getFlavorAvailability s dbOk now).httpStatus = 200 ∧
    (getFlavorAvailability s dbOk now).success = false ∧
    (getFlavorAvailability s dbOk now).data = [] ∧
    (∀ kind, (getAvailabilityFile fs kind).success = true ∧
       (getAvailabilityFile fs kind).data = fs.mapOf kind) := by
  refine ⟨?_, ?_, ?_, ?_, ?_, ?_, ?_⟩ <;>
    first
      | simp [getProductAvailability, getFlavorAvailability, hdisc]
      | intro kind
        cases kind <;>
          simp [getAvailabilityFile, getProductAvailabilityFile,
            getFlavorAvailabilityFile, FileState.mapOf]

/-- Claim C4 amended, witness: the disconnected state from the
counterexample. -/
theorem claim_C4_witness :
    ({ isConnected := false,
       products := some { data := [("p1", true)], lastUpdated := "t0" },
       flavors := none, orders := [] } : MongoState).isConnected = false ∧
    (getProductAvailability
        { isConnected := false,
          products := some { data := [("p1", true)], lastUpdated := "t0" },
          flavors := none, orders := [] } true "t1").httpStatus = 500 ∧
    (getAvailabilityFile
        { productDB := [("p1", true)], flavorDB := [], file := none }
        .products).success = true := by
  have h := claim_C4_disconnected_reads
    { isConnected := false,
      products := some { data := [("p1", true)], lastUpdated := "t0" },
      flavors := none, orders := [] }
    { productDB := [("p1", true)], flavorDB := [], file := none }
    true "t1" rfl
  exact ⟨rfl, h.1, (h.2.2.2.2.2.2 .products).1⟩

/-- Claim C5, counterexample.  The claim says an empty patch is rejected
with InvalidInput and no state change.  The validation
`!x || typeof x !== "object"` lets the empty object through in both
variants: the MongoDB route answers 200/success with count 0 (and, being
a wholesale `$set`, clears the stored map), and the file-backed route
answers 200/success with count 0. -/
theorem claim_C5_counterexample :
    (postProductBulk
        { isConnected := true,
          products := some { data := [("a", true)], lastUpdated := "t0" },
          flavors := none, orders := [] } (.obj []) true "t1").2.httpStatus
      = 200 ∧
    (postProductBulk
        { isConnected := true,
          products := some { data := [("a", true)], lastUpdated := "t0" },
          flavors := none, orders := [] } (.obj []) true "t1").2.success
      = true ∧
    (postProductBulk
        { isConnected := true,
          products := some { data := [("a", true)], lastUpdated := "t0" },
          flavors := none, orders := [] } (.obj []) true "t1").2.count
      = some 0 ∧
    (postProductBulk
        { isConnected := true,
          products := some { data := [("a", true)], lastUpdated := "t0" },
          flavors := none, orders := [] } (.obj []) true "t1").1.mapOf .products
      = [] ∧
    (postProductBulkFile
        { productDB := [("a", true)], flavorDB := [], file := none }
        (.obj []) true "t1").2.success = true ∧
    (postProductBulkFile
        { productDB := [("a", true)], flavorDB := [], file := none }
        (.obj []) true "t1").2.count = some 0 := by
  decide

/-- Claim C5, amended.  The bulk routes reject with HTTP 400 ("Dados
inválidos"), leaving the state untouched, exactly when the submitted field
is JS-falsy or not of `typeof` "object"; the empty object passes the check
and yields 200/success with count 0 (boolean-ness of the values is never
checked). -/
theorem claim_C5_validation (s : MongoState) (fs : FileState) (kind : Kind)
    (v : JsVal) (persistOk writeOk : Bool) (now : String)
    (hconn : s.isConnected = true) :
    ((jsFalsy v = true ∨ jsTypeOf v ≠ "object") →
       (postBulk s kind v persistOk now).2.httpStatus = 400 ∧
       (postBulk s kind v persistOk now).1 = s ∧
       (postBulkFile fs kind v writeOk now).2.httpStatus = 400 ∧
       (postBulkFile fs kind v writeOk now).1 = fs) ∧
    ((postBulk s kind (.obj []) true now).2.httpStatus = 200 ∧
     (postBulk s kind (.obj []) true now).2.success = true ∧
     (postBulk s kind (.obj []) true now).2.count = some 0) ∧
    ((postBulkFile fs kind (.obj []) writeOk now).2.httpStatus = 200 ∧
     (postBulkFile fs kind (.obj []) writeOk now).2.success = true ∧
     (postBulkFile fs kind (.obj []) writeOk now).2.count = some 0) := by
  refine ⟨?_, ?_, ?_⟩
  · intro hbad
    have hguard : (jsFalsy v || !(jsTypeOf v == "object")) = true := by
      rcases hbad with h | h
      · simp [h]
      · simp [h]
    have hv : ∀ p, v ≠ .obj p := by
      intro p hp
      subst hp
      rcases hbad with h | h
      · simp [jsFalsy] at h
      · simp [jsTypeOf] at h
    refine ⟨?_, ?_, ?_, ?_⟩ <;> cases kind <;> cases v <;>
      first
        | exact absurd rfl (hv _)
        | simp [postBulk, postProductBulk, postFlavorBulk, postBulkFile,
            postProductBulkFile, postFlavorBulkFile, hconn, hguard]
  · have h := postBulk_resp s kind [] now hconn
    simp [h]
  · have h := postBulkFile_resp fs kind [] writeOk now
    simp [h]

/-- Claim C5 amended, witness: a connected state rejecting a string body
and accepting the empty object. -/
theorem claim_C5_witness :
    ({ isConnected := true, products := none, flavors := none,
       orders := [] } : MongoState).isConnected = true ∧
    jsTypeOf (.strV "yes") ≠ "object" ∧
    (postBulk
        { isConnected := true, products := none, flavors := none,
          orders := [] }
        .products (.strV "yes") true "t1").2.httpStatus = 400 ∧
    (postBulk
        { isConnected := true, products := none, flavors := none,
          orders := [] }
        .products (.obj []) true "t1").2.success = true := by
  have h := claim_C5_validation
    { isConnected := true, products := none, flavors := none, orders := [] }
    { productDB := [], flavorDB := [], file := none }
    .products (.strV "yes") true true "t1" rfl
  exact ⟨rfl, by decide, (h.1 (Or.inr (by decide))).1, h.2.1.2.1⟩

/-- Claim C6: in the MongoDB variant, a connected bulk update whose
`updateOne` succeeds, followed by a read whose `findOne` succeeds, serves a
map in which every key of the (duplicate-free) patch carries exactly the
patch's value — here because the update stores the patch itself. -/
theorem claim_C6_round_trip (s : MongoState) (kind : Kind) (p : AvailMap)
    (k : String) (v : Bool) (now now2 : String)
    (hconn : s.isConnected = true) (hnd : (p.map Prod.fst).Nodup)
    (hmem : (k, v) ∈ p) :
    (postBulk s kind (.obj p) true now).2.success = true ∧
    (getAvailability (postBulk s kind (.obj p) true now).1 kind true
      now2).success = true ∧
    lookupKey
      ((getAvailability (postBulk s kind (.obj p) true now).1 kind true
         now2).data) k = some v := by
  have h1 := postBulk_resp s kind p now hconn
  have h2 := postBulk_isConnected s kind p now hconn
  have h3 := getAvailability_connected (postBulk s kind (.obj p) true now).1
    kind now2 h2
  refine ⟨by rw [h1], h3.1, ?_⟩
  rw [h3.2, postBulk_mapOf s kind p now hconn]
  exact lookupKey_of_mem_nodup p k v hnd hmem

/-- Claim C6, witness: the scenario of spec §8 — patch p1 ↦ true,
p2 ↦ false written to an empty connected store, then read back. -/
theorem claim_C6_witness :
    ({ isConnected := true, products := none, flavors := none,
       orders := [] } : MongoState).isConnected = true ∧
    ([("p1", true), ("p2", false)].map Prod.fst).Nodup ∧
    ("p1", true) ∈ [("p1", true), ("p2", false)] ∧
    lookupKey
      ((getAvailability
          (postBulk
            { isConnected := true, products := none, flavors := none,
              orders := [] }
            .products (.obj [("p1", true), ("p2", false)]) true "t1").1
          .products true "t2").data) "p1" = some true := by
  refine ⟨rfl, by decide, by decide, ?_⟩
  exact (claim_C6_round_trip
    { isConnected := true, products := none, flavors := none, orders := [] }
    .products [("p1", true), ("p2", false)] "p1" true "t1" "t2" rfl
    (by decide) (by decide)).2.2

/-- Claim C7: applying the same duplicate-free patch twice in sequence
while connected leaves the same final availability map as applying it
once — in the file-backed variant because the key-by-key merge is
idempotent, in the MongoDB variant because both applications store the
patch itself. -/
theorem claim_C7_idempotent (fs : FileState) (s : MongoState) (kind : Kind)
    (p : AvailMap) (w1 w2 : Bool) (now1 now2 : String)
    (hnd : (p.map Prod.fst).Nodup) (hconn : s.isConnected = true) :
    (postBulkFile (postBulkFile fs kind (.obj p) w1 now1).1 kind (.obj p)
      w2 now2).1.mapOf kind
      = (postBulkFile fs kind (.obj p) w1 now1).1.mapOf kind ∧
    (postBulk (postBulk s kind (.obj p) true now1).1 kind (.obj p) true
      now2).1.mapOf kind
      = (postBulk s kind (.obj p) true now1).1.mapOf kind := by
  constructor
  · rw [postBulkFile_mapOf, postBulkFile_mapOf]
    exact applyPatch_idem _ p hnd
  · rw [postBulk_mapOf _ _ _ _ (postBulk_isConnected s kind p now1 hconn),
      postBulk_mapOf s kind p now1 hconn]

/-- Claim C7, witness: a concrete double application in both variants. -/
theorem claim_C7_witness :
    ([("b", true)].map Prod.fst).Nodup ∧
    ({ isConnected := true, products := none, flavors := none,
       orders := [] } : MongoState).isConnected = true ∧
    (postBulkFile
        (postBulkFile
          { productDB := [("a", true)], flavorDB := [], file := none }
          .products (.obj [("b", true)]) true "t1").1
        .products (.obj [("b", true)]) true "t2").1.mapOf .products
      = (postBulkFile
          { productDB := [("a", true)], flavorDB := [], file := none }
          .products (.obj [("b", true)]) true "t1").1.mapOf .products := by
  refine ⟨by decide, rfl, ?_⟩
  exact (claim_C7_idempotent
    { productDB := [("a", true)], flavorDB := [], file := none }
    { isConnected := true, products := none, flavors := none, orders := [] }
    .products [("b", true)] true true "t1" "t2" (by decide) rfl).1

/-- Claim C8, counterexample.  The claim says every connection failure is
followed by bounded-backoff retries — never zero retries before the cap.
In the code a failed startup connection (URI configured, connect throws)
results in exactly one attempt, a false connected flag, and no retry ever
scheduled, in both server variants. -/
theorem claim_C8_counterexample :
    (initializeMongoDB true false).attemptsMade = 1 ∧
    (initializeMongoDB true false).connected = false ∧
    (initializeMongoDB true false).retryScheduled = false ∧
    (connectDB true false).attemptsMade = 1 ∧
    (connectDB true false).connected = false ∧
    (connectDB true false).retryScheduled = false := by
  decide

/-- Claim C8, amended.  Both startup paths make at most one connection
attempt (zero when no URI is configured), never schedule a retry or any
backoff, and end up connected exactly when the URI is set and the single
attempt succeeds; after a failure the process stays disconnected until it
is restarted.  (The 14-minute auto-ping hits the HTTP /health route of the
service itself, not the store, and triggers no reconnection.) -/
theorem claim_C8_no_retry (hasUri connectOk : Bool) :
    (initializeMongoDB hasUri connectOk).attemptsMade ≤ 1 ∧
    (initializeMongoDB hasUri connectOk).retryScheduled = false ∧
    ((initializeMongoDB hasUri connectOk).connected = true
       ↔ hasUri = true ∧ connectOk = true) ∧
    (connectDB hasUri connectOk).attemptsMade ≤ 1 ∧
    (connectDB hasUri connectOk).retryScheduled = false ∧
    ((connectDB hasUri connectOk).connected = true
       ↔ hasUri = true ∧ connectOk = true) := by
  cases hasUri <;> cases connectOk <;> decide

/-- The configured admin password is never the empty string: the env
fallback chain bottoms out at the non-empty literal. -/
theorem adminPasswordOf_ne_empty (env : Option String) :
    adminPasswordOf env ≠ "" := by
  cases env with
  | none => decide
  | some p =>
      by_cases h : p = ""
      · simp [adminPasswordOf, h]
      · simp [adminPasswordOf, h]

/-- Claim C9: for any hash function in place of SHA-256 (both routes call
the same library on the same inputs), any configured password and any
year, the gate accepts the plaintext password, its unsalted digest and the
year-salted digest; the unsalted digest it accepts is exactly the
`passwordHash` that the unauthenticated `GET /api/admin-password` route
hands out, so that value passes `checkAdminPassword`.  The only side
condition is that digests are non-empty strings (true of SHA-256 hex
digests), since the middleware drops JS-falsy credentials. -/
theorem claim_C9_admin_hash (sha256hex : String → String)
    (env : Option String) (year : Nat) (hh : ∀ t, sha256hex t ≠ "") :
    checkAdminPassword sha256hex (adminPasswordOf env) year
      (some (adminPasswordOf env)) = .authorized ∧
    checkAdminPassword sha256hex (adminPasswordOf env) year
      (some (sha256hex (adminPasswordOf env))) = .authorized ∧
    checkAdminPassword sha256hex (adminPasswordOf env) year
      (some (sha256hex (adminPasswordOf env ++ "bebcom_" ++ toString year)))
      = .authorized ∧
    (adminPasswordRoute sha256hex (adminPasswordOf env) year).passwordHash
      = sha256hex (adminPasswordOf env) ∧
    checkAdminPassword sha256hex (adminPasswordOf env) year
      (some (adminPasswordRoute sha256hex (adminPasswordOf env)
        year).passwordHash) = .authorized := by
  have hpwd := adminPasswordOf_ne_empty env
  refine ⟨?_, ?_, ?_, rfl, ?_⟩ <;>
    simp [checkAdminPassword, adminPasswordRoute, beq_iff_eq, hpwd,
      hh (adminPasswordOf env),
      hh (adminPasswordOf env ++ "bebcom_" ++ toString year)]

/-- Claim C9, witness: a concrete (constant, non-empty) stand-in digest
function — the published `passwordHash` passes the gate. -/
theorem claim_C9_witness :
    (∀ t : String, (fun _ : String => "4f2a") t ≠ "") ∧
    checkAdminPassword (fun _ : String => "4f2a") (adminPasswordOf none) 2025
      (some (adminPasswordRoute (fun _ : String => "4f2a")
        (adminPasswordOf none) 2025).passwordHash) = .authorized := by
  have hh : ∀ t : String, (fun _ : String => "4f2a") t ≠ "" := by
    intro t
    simp
  exact ⟨hh, (claim_C9_admin_hash (fun _ : String => "4f2a") none 2025
    hh).2.2.2.2⟩

/-- `find?` skips a prefix in which nothing matches. -/
theorem find?_append_of_none {α : Type} (p : α → Bool) (l1 l2 : List α)
    (h : l1.find? p = none) : (l1 ++ l2).find? p = l2.find? p := by
  induction l1 with
  | nil => simp
  | cons hd tl ih =>
      by_cases hp : p hd
      · rw [List.find?_cons_of_pos _ hp] at h
        cases h
      · rw [List.find?_cons_of_neg _ hp] at h
        rw [List.cons_append, List.find?_cons_of_neg _ hp]
        exact ih h

/-- Claim C10: the order-status route never reports an order as unknown.
The file-backed variant answers `success:true, status:"paid", paid:true`
for every orderId whatsoever; the MongoDB variant answers an orderId that
matches no stored order with `success:true, paid:false, status:"pending"`
— the very same response it gives for an order freshly created (and hence
genuinely pending) through `POST /api/create-payment`. -/
theorem claim_C10_order_status (orders : List Order)
    (oid oid2 customer : String) (amt : Int) (now : String)
    (hunknown : ∀ o ∈ orders, o.orderId ≠ oid)
    (hfresh : ∀ o ∈ orders, o.orderId ≠ oid2) :
    (orderStatusFile oid).success = true ∧
    (orderStatusFile oid).paid = true ∧
    (orderStatusFile oid).status = "paid" ∧
    orderStatusMongo orders oid
      = { httpStatus := 200, success := true, orderId := oid,
          paid := false, status := "pending" } ∧
    orderStatusMongo (createPaymentMongo orders oid2 customer amt now) oid2
      = { httpStatus := 200, success := true, orderId := oid2,
          paid := false, status := "pending" } := by
  have hnone : orders.find? (fun o => o.orderId == oid) = none := by
    rw [List.find?_eq_none]
    intro o ho
    simpa using hunknown o ho
  have hnone2 : orders.find? (fun o => o.orderId == oid2) = none := by
    rw [List.find?_eq_none]
    intro o ho
    simpa using hfresh o ho
  refine ⟨rfl, rfl, rfl, ?_, ?_⟩
  · simp [orderStatusMongo, hnone]
  · rw [orderStatusMongo, createPaymentMongo,
      find?_append_of_none _ _ _ hnone2]
    simp [List.find?]

/-- Claim C10, witness: an empty store — the unknown order "X" and a
freshly created order "Y" are both reported pending and unpaid, and the
file-backed variant reports "X" paid. -/
theorem claim_C10_witness :
    (∀ o ∈ ([] : List Order), o.orderId ≠ "X") ∧
    (orderStatusFile "X").paid = true ∧
    orderStatusMongo [] "X"
      = { httpStatus := 200, success := true, orderId := "X",
          paid := false, status := "pending" } ∧
    orderStatusMongo (createPaymentMongo [] "Y" "cliente" 50 "t1") "Y"
      = { httpStatus := 200, success := true, orderId := "Y",
          paid := false, status := "pending" } := by
  have h1 : ∀ o ∈ ([] : List Order), o.orderId ≠ "X" := by simp
  have h2 : ∀ o ∈ ([] : List Order), o.orderId ≠ "Y" := by simp
  have h := claim_C10_order_status [] "X" "Y" "cliente" 50 "t1" h1 h2
  exact ⟨h1, h.2.1, h.2.2.2.1, h.2.2.2.2⟩

end Bebcom
